import Mathlib

/-!
Shallow embedding of `src/main.py` (Hi-platform-cli, a governed boto3
front-end): the ownership classifier, the global quota accountant
(`get_global_count`), the admission-gated `create` commands, the
ownership-gated `manage`/`upload` commands, and the Route53 record
reconciler.  Provider read results (instance listings, bucket listings,
tag fetches, hosted-zone pages) are modelled as explicit input data;
provider mutations (`run_instances`, `start_instances`, `stop_instances`,
`create_bucket`, `put_bucket_tagging`, `upload_file`,
`create_hosted_zone`, `change_tags_for_resource`,
`change_resource_record_sets`) are recorded in an emitted call trace.
-/

namespace HiPlatform

/-- `MAX_RESOURCES = 2` (src/main.py line 8). -/
def MAX_RESOURCES : Nat := 2

/-- One AWS tag: a `{'Key': ..., 'Value': ...}` dictionary entry. -/
structure Tag where
  key : String
  value : String
deriving DecidableEq, Repr

/-- The fixed ownership pair `CreatedBy = Hi-platform-cli`. -/
def ownershipTag : Tag := ⟨"CreatedBy", "Hi-platform-cli"⟩

/-- The tag-scan loop used throughout main.py:
`for tag in tags: if tag['Key'] == 'CreatedBy' and tag['Value'] == 'Hi-platform-cli'`. -/
def isOwnedTags (tags : List Tag) : Bool :=
  tags.any fun t => t.key == "CreatedBy" && t.value == "Hi-platform-cli"

/-- Result of a per-item tag fetch (`get_bucket_tagging` /
`list_tags_for_resource`): either a tag set, or an error carrying the
provider error code / message. -/
inductive TagFetch where
  | ok (tags : List Tag)
  | err (code : String)
deriving DecidableEq, Repr

/-- An EC2 instance as seen by `describe_instances`. -/
structure Ec2Instance where
  id : String
  state : String
  tags : List Tag
deriving DecidableEq, Repr

/-- An S3 bucket as enumerated by `list_buckets`, together with the
outcome its `get_bucket_tagging` call would have. -/
structure Bucket where
  name : String
  tagFetch : TagFetch
deriving DecidableEq, Repr

/-- A Route53 hosted zone entry as enumerated by `list_hosted_zones`
pages, together with the outcome of its `list_tags_for_resource` call. -/
structure ZoneEntry where
  id : String
  name : String
  tagFetch : TagFetch
deriving DecidableEq, Repr

/-- Characters of the current segment are accumulated (reversed) and
reset at each `/`; at the end the last segment remains. -/
def lastSegAux : List Char → List Char → List Char
  | acc, [] => acc.reverse
  | acc, c :: cs => if c = '/' then lastSegAux [] cs else lastSegAux (c :: acc) cs

/-- `zone['Id'].split('/')[-1]`: the text after the last `/` (the whole
string when there is no `/`), matching Python `split('/')[-1]`. -/
def lastSegment (s : String) : String :=
  ⟨lastSegAux [] s.data⟩

/-- Python `s.endswith(suffix)` on strings, via character lists. -/
def strEndsWith (s suffix : String) : Bool :=
  List.isPrefixOf suffix.data.reverse s.data.reverse

/-- The provider-side filter of src/main.py lines 15-18:
`tag:CreatedBy = Hi-platform-cli` and `instance-state-name = running`. -/
def describeInstancesFiltered (insts : List Ec2Instance) : List Ec2Instance :=
  insts.filter fun i => isOwnedTags i.tags && i.state == "running"

/-- Per-bucket step of the S3 loop in `get_global_count` (lines 26-43):
contribution to `s3_count` and lines printed.  A `ClientError` whose code
is `NoSuchTagSet` is swallowed silently; any other code is logged; either
way the bucket is not counted. -/
def bucketTagStep (b : Bucket) : Nat × List String :=
  match b.tagFetch with
  | TagFetch.ok tags => (if isOwnedTags tags then 1 else 0, [])
  | TagFetch.err code =>
      if code == "NoSuchTagSet" then (0, [])
      else (0, ["Error checking tags for bucket " ++ b.name])

/-- Per-zone step of the Route53 loop in `get_global_count` (lines
49-69): any exception from the tag lookup is logged and the zone is
skipped. -/
def zoneTagStep (z : ZoneEntry) : Nat × List String :=
  match z.tagFetch with
  | TagFetch.ok tags => (if isOwnedTags tags then 1 else 0, [])
  | TagFetch.err _ =>
      (0, ["Error checking tags for zone " ++ lastSegment z.id])

/-- The provider world consulted by `get_global_count`: the outcome of
the primary `describe_instances`, `list_buckets` and
`list_hosted_zones` pagination calls.  An `error` value means the
primary call raises (which main.py does not catch). -/
structure AwsWorld where
  ec2List : Except String (List Ec2Instance)
  s3List : Except String (List Bucket)
  r53Pages : Except String (List (List ZoneEntry))
deriving Repr

/-- `get_global_count` (src/main.py lines 10-72): sums owned running
instances (provider-filtered), owned buckets, and owned zones, collecting
per-item error logs; a primary listing failure propagates. Returns the
count together with the logged per-item errors. -/
def get_global_count (w : AwsWorld) : Except String (Nat × List String) :=
  match w.ec2List with
  | Except.error e => Except.error e
  | Except.ok insts =>
    let ec2_count := (describeInstancesFiltered insts).length
    match w.s3List with
    | Except.error e => Except.error e
    | Except.ok buckets =>
      let s3_count := (buckets.map fun b => (bucketTagStep b).1).sum
      let s3_logs := (buckets.map fun b => (bucketTagStep b).2).flatten
      match w.r53Pages with
      | Except.error e => Except.error e
      | Except.ok pages =>
        let zones := pages.flatten
        let r53_count := (zones.map fun z => (zoneTagStep z).1).sum
        let r53_logs := (zones.map fun z => (zoneTagStep z).2).flatten
        Except.ok (ec2_count + s3_count + r53_count, s3_logs ++ r53_logs)

/-- A provider mutation call issued by a command, with its arguments. -/
inductive Call where
  | runInstances (instanceType : String) (tags : List Tag)
  | startInstances (instanceId : String)
  | stopInstances (instanceId : String)
  | createBucket (bucket : String)
  | putBucketTagging (bucket : String) (tags : List Tag)
  | deletePublicAccessBlock (bucket : String)
  | putBucketOwnershipControls (bucket : String)
  | putBucketAcl (bucket : String) (acl : String)
  | uploadFile (file : String) (bucket : String) (fileName : String)
  | createHostedZone (domain : String)
  | changeTagsForResource (zoneId : String) (tags : List Tag)
  | changeResourceRecordSets (zoneId : String) (action : String)
      (name : String) (recordType : String) (value : String) (ttl : Nat)
deriving DecidableEq, Repr

/-- How a command run ends: `exit c` is `sys.exit(c)` or normal return
(`exit 0`); `crash` is an uncaught Python exception (non-zero process
status, but distinct from a deliberate `sys.exit`). -/
inductive Outcome where
  | exit (code : Nat)
  | crash (msg : String)
deriving DecidableEq, Repr

/-- A command run: final outcome, issued provider mutation calls in
order, and the `click.echo` lines printed by the command body. -/
structure CmdResult where
  outcome : Outcome
  calls : List Call
  output : List String
deriving DecidableEq, Repr

/-- Tags stamped by `ec2 create` inside `run_instances`
(`TagSpecifications`, src/main.py lines 136-144). -/
def ec2CreateTags (osName : String) : List Tag :=
  [ownershipTag, ⟨"Name", "Hi-platform-cli-" ++ osName ++ "-node"⟩]

/-- `ec2 create` (src/main.py lines 101-146): credentials gate, global
count, admission check against `MAX_RESOURCES`, then a single
`run_instances` call that carries the ownership tag in its
`TagSpecifications`.  `credsOk` is the `sts.get_caller_identity`
outcome, `amiFetch` the `ssm.get_parameter` outcome. -/
def ec2Create (credsOk : Bool) (w : AwsWorld) (amiFetch : Except String String)
    (instanceType osName : String) : CmdResult :=
  if !credsOk then
    ⟨Outcome.exit 1, [],
      ["Error: Unable to connect to AWS.",
       "Please run 'python main.py configure' first."]⟩
  else
    match get_global_count w with
    | Except.error e =>
        ⟨Outcome.crash e, [], ["AWS Configuration verified. Checking global limits..."]⟩
    | Except.ok (total_count, _logs) =>
      if total_count ≥ MAX_RESOURCES then
        ⟨Outcome.exit 1, [],
          ["AWS Configuration verified. Checking global limits...",
           "Error: Global Limit reached. You have " ++ toString total_count ++ " resources running."]⟩
      else
        match amiFetch with
        | Except.error e =>
            ⟨Outcome.crash e, [],
              ["AWS Configuration verified. Checking global limits..."]⟩
        | Except.ok _amiId =>
            ⟨Outcome.exit 0, [Call.runInstances instanceType (ec2CreateTags osName)],
              ["AWS Configuration verified. Checking global limits...",
               "Limit OK (" ++ toString total_count ++ "/" ++ toString MAX_RESOURCES ++ "). Launching " ++ osName ++ "...",
               "Success! Launched " ++ instanceType ++ " instance."]⟩

/-- `ec2 manage` (src/main.py lines 148-208): flag validation, instance
lookup (`describe_instances` on the id; any exception, including
not-found, yields the "not found" error), ownership gate, then the
start/stop state machine.  `lookup` is the `describe_instances` result
for the requested id. -/
def ec2Manage (start stop : Bool) (instance_id : String)
    (lookup : Except String Ec2Instance) : CmdResult :=
  if start && stop then
    ⟨Outcome.exit 1, [], ["Error: You cannot specify both --start and --stop."]⟩
  else if !start && !stop then
    ⟨Outcome.exit 1, [], ["Error: You must specify --start or --stop."]⟩
  else
    match lookup with
    | Except.error _ =>
        ⟨Outcome.exit 1, [], ["Error: Instance " ++ instance_id ++ " not found."]⟩
    | Except.ok inst =>
      if !isOwnedTags inst.tags then
        ⟨Outcome.exit 1, [],
          ["Error: Instance " ++ instance_id ++ " was not created by this CLI. Access Denied."]⟩
      else
        if start then
          if inst.state == "running" then
            ⟨Outcome.exit 0, [], ["Aborted: Instance " ++ instance_id ++ " is already running."]⟩
          else if inst.state == "pending" then
            ⟨Outcome.exit 0, [], ["Aborted: Instance " ++ instance_id ++ " is already starting up (pending)."]⟩
          else
            ⟨Outcome.exit 0, [Call.startInstances instance_id],
              ["Starting instance " ++ instance_id ++ "...", "Success."]⟩
        else
          if inst.state == "stopped" then
            ⟨Outcome.exit 0, [], ["Aborted: Instance " ++ instance_id ++ " is already stopped."]⟩
          else if inst.state == "stopping" then
            ⟨Outcome.exit 0, [], ["Aborted: Instance " ++ instance_id ++ " is already shutting down."]⟩
          else if inst.state == "terminated" then
            ⟨Outcome.exit 1, [],
              ["Error: Instance " ++ instance_id ++ " is terminated and cannot be stopped."]⟩
          else
            ⟨Outcome.exit 0, [Call.stopInstances instance_id],
              ["Stopping instance " ++ instance_id ++ "...", "Success."]⟩

/-- Tags stamped by `s3 create` via `put_bucket_tagging`
(src/main.py lines 274-282). -/
def s3CreateTags (bucket_name : String) : List Tag :=
  [ownershipTag, ⟨"Name", bucket_name⟩]

/-- `s3 create` (src/main.py lines 241-296): flag validation,
credentials gate, global count, admission check, then `create_bucket`
followed by a separate `put_bucket_tagging` call (and, for `--pub`, the
three public-access calls).  `createOk`/`tagOk` say whether the
`create_bucket` / `put_bucket_tagging` calls raise; a raise is uncaught
and crashes the command after the call was issued. -/
def s3Create (pub pri : Bool) (credsOk : Bool) (w : AwsWorld)
    (bucket_name : String) (createOk tagOk : Bool) : CmdResult :=
  if pub && pri then
    ⟨Outcome.exit 1, [], ["Error: You cannot specify both --pub and --pri."]⟩
  else
    let access_type := if pub then "public" else "private"
    if !credsOk then
      ⟨Outcome.exit 1, [],
        ["Error: Unable to connect to AWS.",
         "Please run 'python main.py configure' first."]⟩
    else
      match get_global_count w with
      | Except.error e =>
          ⟨Outcome.crash e, [], ["AWS Configuration verified. Checking global limits..."]⟩
      | Except.ok (total_count, _logs) =>
        if total_count ≥ MAX_RESOURCES then
          ⟨Outcome.exit 1, [],
            ["AWS Configuration verified. Checking global limits...",
             "Error: Global Limit reached. You have " ++ toString total_count ++ " resources running."]⟩
        else
          let header := ["AWS Configuration verified. Checking global limits...",
            "Limit OK (" ++ toString (total_count + 1) ++ "/" ++ toString MAX_RESOURCES ++ "). Creating "
              ++ access_type ++ " Bucket " ++ bucket_name ++ "..."]
          if !createOk then
            ⟨Outcome.crash "create_bucket failed", [Call.createBucket bucket_name], header⟩
          else if !tagOk then
            ⟨Outcome.crash "put_bucket_tagging failed",
              [Call.createBucket bucket_name,
               Call.putBucketTagging bucket_name (s3CreateTags bucket_name)], header⟩
          else
            let baseCalls := [Call.createBucket bucket_name,
              Call.putBucketTagging bucket_name (s3CreateTags bucket_name)]
            let pubCalls := if pub then
                [Call.deletePublicAccessBlock bucket_name,
                 Call.putBucketOwnershipControls bucket_name,
                 Call.putBucketAcl bucket_name "public-read"]
              else []
            ⟨Outcome.exit 0, baseCalls ++ pubCalls,
              header ++ ["Success! Created " ++ access_type ++ " Bucket."]⟩

/-- `s3 upload` (src/main.py lines 299-330): local file-existence check,
bucket tag fetch, ownership gate, then `upload_file`.  A `ClientError`
from either the tag fetch or the upload is caught by the one handler and
exits 1; `uploadOk` says whether the issued `upload_file` call raises. -/
def s3Upload (fileExists : Bool) (bucket file : String) (tagFetch : TagFetch)
    (uploadOk : Bool) : CmdResult :=
  if !fileExists then
    ⟨Outcome.exit 1, [], ["Error: The file '" ++ file ++ "' does not exist"]⟩
  else
    match tagFetch with
    | TagFetch.err code =>
        ⟨Outcome.exit 1, [], ["Error: Unable to verify bucket tags. " ++ code]⟩
    | TagFetch.ok tag_set =>
      if !isOwnedTags tag_set then
        ⟨Outcome.exit 1, [],
          ["Error: Access Denied. Bucket '" ++ bucket ++ "' is not managed by Hi-platform-cli."]⟩
      else if uploadOk then
        ⟨Outcome.exit 0, [Call.uploadFile file bucket (lastSegment file)],
          ["Success! File uploaded.", "Uploading Files..."]⟩
      else
        ⟨Outcome.exit 1, [Call.uploadFile file bucket (lastSegment file)],
          ["Error: Unable to verify bucket tags. upload failed"]⟩

/-- `route53 create` (src/main.py lines 368-392): creates the hosted
zone and then stamps the ownership tag with a second
`change_tags_for_resource` call.  There is no credentials gate and no
admission check: the world `w` of provider state is never consulted.
`createRes` is the `create_hosted_zone` outcome (the full zone id on
success); `tagOk` says whether the tag call raises. -/
def route53Create (_w : AwsWorld) (domain : String)
    (createRes : Except String String) (tagOk : Bool) : CmdResult :=
  match createRes with
  | Except.error e =>
      ⟨Outcome.crash e, [Call.createHostedZone domain], ["Creating dns zones..."]⟩
  | Except.ok full_id =>
    let zone_id := lastSegment full_id
    if tagOk then
      ⟨Outcome.exit 0,
        [Call.createHostedZone domain, Call.changeTagsForResource zone_id [ownershipTag]],
        ["Creating dns zones...", "Create Zone ID: " ++ zone_id]⟩
    else
      ⟨Outcome.crash "change_tags_for_resource failed",
        [Call.createHostedZone domain, Call.changeTagsForResource zone_id [ownershipTag]],
        ["Creating dns zones...", "Create Zone ID: " ++ zone_id]⟩

/-- The trailing-dot normalization of src/main.py line 414:
`zone if zone.endswith('.') else f"{zone}."`. -/
def targetZoneName (zone : String) : String :=
  if strEndsWith zone "." then zone else zone ++ "."

/-- The zone-resolution loop of src/main.py lines 418-425: scan the
pages in order and take the first hosted zone whose name equals the
target (breaking out of both loops on the first match). -/
def resolveZone (pages : List (List ZoneEntry)) (target : String) : Option ZoneEntry :=
  pages.flatten.find? fun z => z.name == target

/-- `route53 manage` (src/main.py lines 396-480): exactly-one-flag
check, trailing-dot normalization, first-match zone resolution,
ownership gate, then one `change_resource_record_sets` call whose action
is `DELETE` for `--delete` and `UPSERT` for both `--create` and
`--update`.  Every failure path uses `return`, so the process exits 0.
`pagesRes` is the pagination outcome, `changeOk` whether the change call
raises (caught and reported). -/
def route53Manage (create update delete : Bool) (zone name value recordType : String)
    (ttl : Nat) (pagesRes : Except String (List (List ZoneEntry)))
    (changeOk : Bool) : CmdResult :=
  if (if create then 1 else 0) + (if update then 1 else 0) + (if delete then 1 else 0) ≠ 1 then
    ⟨Outcome.exit 0, [],
      ["Error: You must specify exactly one action: --create, --update, or --delete"]⟩
  else
    let target_zone_name := targetZoneName zone
    match pagesRes with
    | Except.error e => ⟨Outcome.crash e, [], []⟩
    | Except.ok pages =>
      match resolveZone pages target_zone_name with
      | none =>
          ⟨Outcome.exit 0, [], ["Error: Hosted Zone '" ++ zone ++ "' not found."]⟩
      | some z =>
        let found_zone_id := lastSegment z.id
        match z.tagFetch with
        | TagFetch.err e =>
            ⟨Outcome.exit 0, [], ["Error reading tags: " ++ e]⟩
        | TagFetch.ok tags =>
          if !isOwnedTags tags then
            ⟨Outcome.exit 0, [],
              ["Permission Denied: Zone '" ++ zone ++ "' is not managed by Hi-platform-cli."]⟩
          else
            let action := if delete then "DELETE" else "UPSERT"
            let call := Call.changeResourceRecordSets found_zone_id action name recordType value ttl
            if changeOk then
              ⟨Outcome.exit 0, [call], ["Success! Status: PENDING"]⟩
            else
              ⟨Outcome.exit 0, [call], ["AWS Error: change failed"]⟩

/-- Whether a listed bucket classifies as owned in `get_global_count`
(tag fetch succeeded and the ownership pair is present). -/
def bucketOwned (b : Bucket) : Bool :=
  match b.tagFetch with
  | TagFetch.ok tags => isOwnedTags tags
  | TagFetch.err _ => false

/-- Whether a listed hosted zone classifies as owned in
`get_global_count`. -/
def zoneOwned (z : ZoneEntry) : Bool :=
  match z.tagFetch with
  | TagFetch.ok tags => isOwnedTags tags
  | TagFetch.err _ => false

/-- The spec's notion of an active compute instance ("state ∈ {pending,
running}"), written from the spec's words for comparison with the
source's provider filter, which requests only `running`. -/
def specActiveCompute (i : Ec2Instance) : Bool :=
  isOwnedTags i.tags && (i.state == "pending" || i.state == "running")

/-- The global count asserted by the spec: owned pending-or-running
compute instances plus owned buckets plus owned zones.  Written from the
spec's words for comparison with `get_global_count`. -/
def specGlobalCount (insts : List Ec2Instance) (bkts : List Bucket)
    (zones : List ZoneEntry) : Nat :=
  (insts.filter specActiveCompute).length
    + (bkts.filter bucketOwned).length
    + (zones.filter zoneOwned).length

/-- A provider world with no resources at all: global count 0. -/
def emptyWorld : AwsWorld :=
  ⟨Except.ok [], Except.ok [], Except.ok []⟩

/-- A provider world holding exactly two owned buckets: global count 2,
i.e. exactly at `MAX_RESOURCES`. -/
def cappedWorld : AwsWorld :=
  ⟨Except.ok [],
   Except.ok [⟨"b1", TagFetch.ok [ownershipTag]⟩, ⟨"b2", TagFetch.ok [ownershipTag]⟩],
   Except.ok []⟩

/-- A provider world holding exactly one owned compute instance in state
`pending` and nothing else. -/
def pendingWorld : AwsWorld :=
  ⟨Except.ok [⟨"i-1", "pending", [ownershipTag]⟩], Except.ok [], Except.ok []⟩

/-! ### Helper lemmas -/

theorem sum_map_boolCount {α : Type} (p : α → Bool) (l : List α) :
    (l.map fun a => if p a then 1 else 0).sum = (l.filter p).length := by
  induction l with
  | nil => rfl
  | cons a t ih =>
      cases hp : p a
      · simp [List.filter_cons, hp, ih]
      · simp [List.filter_cons, hp, ih]
        omega

theorem bucketTagStep_fst (b : Bucket) :
    (bucketTagStep b).1 = if bucketOwned b then 1 else 0 := by
  cases b with
  | mk name tf =>
    cases tf with
    | ok tags => rfl
    | err code => cases h : code == "NoSuchTagSet" <;> simp [bucketTagStep, bucketOwned, h]

theorem zoneTagStep_fst (z : ZoneEntry) :
    (zoneTagStep z).1 = if zoneOwned z then 1 else 0 := by
  cases z with
  | mk id name tf => cases tf <;> rfl

/-- Closed form of `get_global_count` when all three primary listing
calls succeed: owned running instances + owned buckets + owned zones. -/
theorem global_count_closed_form (insts : List Ec2Instance) (bkts : List Bucket)
    (pages : List (List ZoneEntry)) :
    ∃ logs, get_global_count ⟨Except.ok insts, Except.ok bkts, Except.ok pages⟩ =
      Except.ok ((insts.filter fun i => isOwnedTags i.tags && i.state == "running").length
        + (bkts.filter bucketOwned).length
        + (pages.flatten.filter zoneOwned).length, logs) := by
  have hb : (bkts.map fun b => (bucketTagStep b).1).sum = (bkts.filter bucketOwned).length := by
    rw [show (fun b => (bucketTagStep b).1) = (fun b => if bucketOwned b then 1 else 0) from
      funext bucketTagStep_fst, sum_map_boolCount]
  have hz : (pages.flatten.map fun z => (zoneTagStep z).1).sum
      = (pages.flatten.filter zoneOwned).length := by
    rw [show (fun z => (zoneTagStep z).1) = (fun z => if zoneOwned z then 1 else 0) from
      funext zoneTagStep_fst, sum_map_boolCount]
  refine ⟨(bkts.map fun b => (bucketTagStep b).2).flatten
      ++ (pages.flatten.map fun z => (zoneTagStep z).2).flatten, ?_⟩
  simp only [get_global_count, describeInstancesFiltered]
  rw [hb, hz]

/-- Claim C3, counterexample: one owned compute instance in state
`pending` and nothing else.  The spec's count is 1, but the code's
provider filter requests only `instance-state-name = running`, so
`get_global_count` returns 0. -/
theorem C3_counterexample :
    get_global_count pendingWorld = Except.ok (0, []) ∧
    specGlobalCount [⟨"i-1", "pending", [ownershipTag]⟩] [] [] = 1 :=
  ⟨rfl, by decide⟩

/-- Claim C3, amended: the global count computed before admission equals
the sum over the three kinds of owned resources, where for compute only
owned instances whose state is exactly `running` are counted (owned
`pending` instances are excluded by the provider filter), and for
storage buckets and DNS hosted zones every owned instance is counted
regardless of state. -/
theorem C3_amended_global_count (insts : List Ec2Instance) (bkts : List Bucket)
    (pages : List (List ZoneEntry)) :
    ∃ logs, get_global_count ⟨Except.ok insts, Except.ok bkts, Except.ok pages⟩ =
      Except.ok ((insts.filter fun i => isOwnedTags i.tags && i.state == "running").length
        + (bkts.filter bucketOwned).length
        + (pages.flatten.filter zoneOwned).length, logs) :=
  global_count_closed_form insts bkts pages

/-- A tag list that nowhere holds the exact `CreatedBy=Hi-platform-cli`
pair does not classify as owned. -/
theorem isOwnedTags_eq_false_of_lacks {ts : List Tag}
    (h : ∀ t ∈ ts, ¬(t.key = "CreatedBy" ∧ t.value = "Hi-platform-cli")) :
    isOwnedTags ts = false := by
  simp only [isOwnedTags, List.any_eq_false, Bool.and_eq_true, beq_iff_eq, not_and]
  intro t ht hk hv
  exact h t ht ⟨hk, hv⟩

/-- Claim C1, counterexample: with the global count already at the cap
(`cappedWorld` holds 2 owned buckets, `MAX_RESOURCES = 2`), the
`route53 create` command still issues the provider `create_hosted_zone`
call and exits 0 — the DNS creation command performs no admission check
at all. -/
theorem C1_counterexample :
    get_global_count cappedWorld = Except.ok (2, []) ∧
    route53Create cappedWorld "example.com" (Except.ok "/hostedzone/Z1") true =
      ⟨Outcome.exit 0,
        [Call.createHostedZone "example.com", Call.changeTagsForResource "Z1" [ownershipTag]],
        ["Creating dns zones...", "Create Zone ID: Z1"]⟩ :=
  ⟨rfl, by decide⟩

/-- Claim C1, amended: the compute and storage creation commands reject
(exit 1, no provider call) when the global count is at or above
`MAX_RESOURCES` and issue the provider create call when below; the DNS
hosted-zone creation command performs no admission check and issues
`create_hosted_zone` regardless of the count. -/
theorem C1_amended_admission (w : AwsWorld) (count : Nat) (logs : List String)
    (instanceType osName bname : String)
    (hc : get_global_count w = Except.ok (count, logs)) :
    (count ≥ MAX_RESOURCES →
      ∀ (amiFetch : Except String String) (createOk tagOk : Bool),
        (ec2Create true w amiFetch instanceType osName).outcome = Outcome.exit 1 ∧
        (ec2Create true w amiFetch instanceType osName).calls = [] ∧
        (s3Create false false true w bname createOk tagOk).outcome = Outcome.exit 1 ∧
        (s3Create false false true w bname createOk tagOk).calls = []) ∧
    (count < MAX_RESOURCES →
      ∀ amiId : String,
        (ec2Create true w (Except.ok amiId) instanceType osName).calls
          = [Call.runInstances instanceType (ec2CreateTags osName)] ∧
        (s3Create false false true w bname true true).calls
          = [Call.createBucket bname, Call.putBucketTagging bname (s3CreateTags bname)]) ∧
    (∀ (domain : String) (createRes : Except String String) (tagOk : Bool),
      Call.createHostedZone domain ∈ (route53Create w domain createRes tagOk).calls) := by
  refine ⟨?_, ?_, ?_⟩
  · intro h amiFetch createOk tagOk
    refine ⟨?_, ?_, ?_, ?_⟩ <;> simp [ec2Create, s3Create, hc, h]
  · intro h amiId
    have h' : ¬count ≥ MAX_RESOURCES := Nat.not_le.mpr h
    refine ⟨?_, ?_⟩ <;> simp [ec2Create, s3Create, hc, h']
  · intro domain createRes tagOk
    cases createRes <;> cases tagOk <;> simp [route53Create]

/-- Claim C2: a lifecycle mutation request (instance start/stop, bucket
upload, DNS record change) on a resource whose tag set lacks the exact
`CreatedBy=Hi-platform-cli` pair is denied, and no provider mutate call
(`start_instances`, `stop_instances`, `upload_file`,
`change_resource_record_sets`) is issued for that resource. -/
theorem C2_ownership_gate :
    (∀ (start stop : Bool) (instance_id : String) (inst : Ec2Instance),
      (∀ t ∈ inst.tags, ¬(t.key = "CreatedBy" ∧ t.value = "Hi-platform-cli")) →
      (ec2Manage start stop instance_id (Except.ok inst)).calls = [] ∧
      (ec2Manage start stop instance_id (Except.ok inst)).outcome = Outcome.exit 1) ∧
    (∀ (fileExists : Bool) (bucket file : String) (tag_set : List Tag) (uploadOk : Bool),
      (∀ t ∈ tag_set, ¬(t.key = "CreatedBy" ∧ t.value = "Hi-platform-cli")) →
      (s3Upload fileExists bucket file (TagFetch.ok tag_set) uploadOk).calls = [] ∧
      (s3Upload fileExists bucket file (TagFetch.ok tag_set) uploadOk).outcome = Outcome.exit 1) ∧
    (∀ (cr up de : Bool) (zone name value recordType : String) (ttl : Nat)
        (pages : List (List ZoneEntry)) (changeOk : Bool) (z : ZoneEntry) (ts : List Tag),
      resolveZone pages (targetZoneName zone) = some z →
      z.tagFetch = TagFetch.ok ts →
      (∀ t ∈ ts, ¬(t.key = "CreatedBy" ∧ t.value = "Hi-platform-cli")) →
      (route53Manage cr up de zone name value recordType ttl (Except.ok pages) changeOk).calls
        = []) := by
  refine ⟨?_, ?_, ?_⟩
  · intro start stop instance_id inst h
    have hb := isOwnedTags_eq_false_of_lacks h
    cases start <;> cases stop <;> simp [ec2Manage, hb]
  · intro fileExists bucket file tag_set uploadOk h
    have hb := isOwnedTags_eq_false_of_lacks h
    cases fileExists <;> simp [s3Upload, hb]
  · intro cr up de zone name value recordType ttl pages changeOk z ts h1 h2 h3
    have hb := isOwnedTags_eq_false_of_lacks h3
    cases cr <;> cases up <;> cases de <;> simp [route53Manage, h1, h2, hb]

/-- Claim C1, amended, witness: the admission theorem applied at
`cappedWorld` (count 2, deny) and `emptyWorld` (count 0, allow). -/
theorem C1_amended_admission_witness :
    ((ec2Create true cappedWorld (Except.ok "ami-1") "t3.micro" "ubuntu").outcome
        = Outcome.exit 1 ∧
      (ec2Create true cappedWorld (Except.ok "ami-1") "t3.micro" "ubuntu").calls = [] ∧
      (s3Create false false true cappedWorld "hi-bucket" true true).outcome = Outcome.exit 1 ∧
      (s3Create false false true cappedWorld "hi-bucket" true true).calls = []) ∧
    ((ec2Create true emptyWorld (Except.ok "ami-1") "t3.micro" "ubuntu").calls
        = [Call.runInstances "t3.micro" (ec2CreateTags "ubuntu")] ∧
      (s3Create false false true emptyWorld "hi-bucket" true true).calls
        = [Call.createBucket "hi-bucket",
           Call.putBucketTagging "hi-bucket" (s3CreateTags "hi-bucket")]) ∧
    Call.createHostedZone "example.com" ∈
      (route53Create cappedWorld "example.com" (Except.ok "/hostedzone/Z1") true).calls :=
  ⟨(C1_amended_admission cappedWorld 2 [] "t3.micro" "ubuntu" "hi-bucket" rfl).1
      (by decide) (Except.ok "ami-1") true true,
   (C1_amended_admission emptyWorld 0 [] "t3.micro" "ubuntu" "hi-bucket" rfl).2.1
      (by decide) "ami-1",
   (C1_amended_admission cappedWorld 2 [] "t3.micro" "ubuntu" "hi-bucket" rfl).2.2
      "example.com" (Except.ok "/hostedzone/Z1") true⟩

/-- Claim C2, witness: the ownership gate applied to a concrete unowned
instance, bucket and zone. -/
theorem C2_ownership_gate_witness :
    (ec2Manage false true "i-1" (Except.ok ⟨"i-1", "running", [⟨"Name", "x"⟩]⟩)).calls = [] ∧
    (s3Upload true "b" "f.txt" (TagFetch.ok []) true).calls = [] ∧
    (route53Manage true false false "example.com" "api.example.com" "1.2.3.4" "A" 300
      (Except.ok [[⟨"/hostedzone/Z9", "example.com.", TagFetch.ok []⟩]]) true).calls = [] :=
  ⟨(C2_ownership_gate.1 false true "i-1" ⟨"i-1", "running", [⟨"Name", "x"⟩]⟩ (by decide)).1,
   (C2_ownership_gate.2.1 true "b" "f.txt" [] true (by decide)).1,
   C2_ownership_gate.2.2 true false false "example.com" "api.example.com" "1.2.3.4" "A" 300
     [[⟨"/hostedzone/Z9", "example.com.", TagFetch.ok []⟩]] true
     ⟨"/hostedzone/Z9", "example.com.", TagFetch.ok []⟩ [] (by decide) rfl (by decide)⟩

/-- Claim C4, counterexample: starting an owned instance whose state is
`terminated` is not denied — the start branch only short-circuits on
`running` and `pending`, so the provider `start_instances` call is
issued and the command exits 0, contradicting the claimed
invalid-transition denial. -/
theorem C4_counterexample :
    ec2Manage true false "i-1" (Except.ok ⟨"i-1", "terminated", [ownershipTag]⟩) =
      ⟨Outcome.exit 0, [Call.startInstances "i-1"],
        ["Starting instance i-1...", "Success."]⟩ := by decide

/-- Claim C4, amended: a start request for an owned compute instance
whose current state is terminated is NOT denied: the command issues the
provider `start_instances` call and exits 0 (only `running` and
`pending` short-circuit the start branch). -/
theorem C4_amended_start_terminated (instance_id : String) (tags : List Tag)
    (h : isOwnedTags tags = true) :
    ec2Manage true false instance_id (Except.ok ⟨instance_id, "terminated", tags⟩) =
      ⟨Outcome.exit 0, [Call.startInstances instance_id],
        ["Starting instance " ++ instance_id ++ "...", "Success."]⟩ := by
  simp [ec2Manage, h]

/-- Claim C4, amended, witness. -/
theorem C4_amended_start_terminated_witness :
    ec2Manage true false "i-9" (Except.ok ⟨"i-9", "terminated", [ownershipTag]⟩) =
      ⟨Outcome.exit 0, [Call.startInstances "i-9"],
        ["Starting instance i-9...", "Success."]⟩ :=
  C4_amended_start_terminated "i-9" [ownershipTag] (by decide)

/-- Claim C10: in the compute manage command with `--start`, only the
states `running` and `pending` short-circuit to a no-op; for an owned
instance in any other state the provider start call is issued and the
command exits 0. -/
theorem C10_start_issued_other_states (instance_id st : String) (tags : List Tag)
    (h : isOwnedTags tags = true) (h1 : st ≠ "running") (h2 : st ≠ "pending") :
    ec2Manage true false instance_id (Except.ok ⟨instance_id, st, tags⟩) =
      ⟨Outcome.exit 0, [Call.startInstances instance_id],
        ["Starting instance " ++ instance_id ++ "...", "Success."]⟩ := by
  simp [ec2Manage, h, h1, h2]

/-- Claim C10, witness: applied at the states `stopping` and
`terminated`. -/
theorem C10_start_issued_other_states_witness :
    ec2Manage true false "i-2" (Except.ok ⟨"i-2", "stopping", [ownershipTag]⟩) =
      ⟨Outcome.exit 0, [Call.startInstances "i-2"],
        ["Starting instance i-2...", "Success."]⟩ ∧
    ec2Manage true false "i-3" (Except.ok ⟨"i-3", "terminated", [ownershipTag]⟩) =
      ⟨Outcome.exit 0, [Call.startInstances "i-3"],
        ["Starting instance i-3...", "Success."]⟩ :=
  ⟨C10_start_issued_other_states "i-2" "stopping" [ownershipTag]
     (by decide) (by decide) (by decide),
   C10_start_issued_other_states "i-3" "terminated" [ownershipTag]
     (by decide) (by decide) (by decide)⟩

/-- Claim C8: for an owned compute instance, start on `running`/`pending`
and stop on `stopped`/`stopping` are no-op aborts exiting 0 with no
provider call, while stop on `terminated` exits 1 as an invalid
transition, also with no provider call. -/
theorem C8_noop_and_invalid (instance_id : String) (tags : List Tag)
    (h : isOwnedTags tags = true) :
    (∀ st, st = "running" ∨ st = "pending" →
      (ec2Manage true false instance_id (Except.ok ⟨instance_id, st, tags⟩)).outcome
          = Outcome.exit 0 ∧
      (ec2Manage true false instance_id (Except.ok ⟨instance_id, st, tags⟩)).calls = []) ∧
    (∀ st, st = "stopped" ∨ st = "stopping" →
      (ec2Manage false true instance_id (Except.ok ⟨instance_id, st, tags⟩)).outcome
          = Outcome.exit 0 ∧
      (ec2Manage false true instance_id (Except.ok ⟨instance_id, st, tags⟩)).calls = []) ∧
    ((ec2Manage false true instance_id (Except.ok ⟨instance_id, "terminated", tags⟩)).outcome
          = Outcome.exit 1 ∧
      (ec2Manage false true instance_id (Except.ok ⟨instance_id, "terminated", tags⟩)).calls
          = []) := by
  refine ⟨?_, ?_, ?_⟩
  · rintro st (rfl | rfl) <;> exact ⟨by simp [ec2Manage, h], by simp [ec2Manage, h]⟩
  · rintro st (rfl | rfl) <;> exact ⟨by simp [ec2Manage, h], by simp [ec2Manage, h]⟩
  · exact ⟨by simp [ec2Manage, h], by simp [ec2Manage, h]⟩

/-- Claim C8, witness: sample no-op aborts and the invalid stop. -/
theorem C8_noop_and_invalid_witness :
    (ec2Manage true false "i-5" (Except.ok ⟨"i-5", "running", [ownershipTag]⟩)).outcome
        = Outcome.exit 0 ∧
    (ec2Manage false true "i-5" (Except.ok ⟨"i-5", "stopping", [ownershipTag]⟩)).calls = [] ∧
    (ec2Manage false true "i-5" (Except.ok ⟨"i-5", "terminated", [ownershipTag]⟩)).outcome
        = Outcome.exit 1 :=
  ⟨((C8_noop_and_invalid "i-5" [ownershipTag] (by decide)).1 "running" (Or.inl rfl)).1,
   ((C8_noop_and_invalid "i-5" [ownershipTag] (by decide)).2.1 "stopping" (Or.inr rfl)).2,
   ((C8_noop_and_invalid "i-5" [ownershipTag] (by decide)).2.2).1⟩

theorem isPrefixOf_append_self {α : Type} [BEq α] [LawfulBEq α] (l m : List α) :
    List.isPrefixOf l (l ++ m) = true := by
  induction l with
  | nil => simp
  | cons a t ih => simp [List.isPrefixOf, ih]

/-- The normalized zone name always carries the trailing dot. -/
theorem targetZoneName_endsWith_dot (zone : String) :
    strEndsWith (targetZoneName zone) "." = true := by
  unfold targetZoneName
  by_cases h : strEndsWith zone "." = true
  · simp [h]
  · simp only [h, if_false]
    simp [strEndsWith, String.data_append, isPrefixOf_append_self]

theorem find?_append_first {α : Type} (p : α → Bool) (l₁ l₂ : List α) (a : α)
    (ha : p a = true) (hb : ∀ x ∈ l₁, p x = false) :
    (l₁ ++ a :: l₂).find? p = some a := by
  induction l₁ with
  | nil => simp [List.find?_cons, ha]
  | cons x t ih =>
      have hx := hb x (List.mem_cons_self x t)
      simp only [List.cons_append, List.find?_cons, hx]
      exact ih fun y hy => hb y (List.mem_cons_of_mem x hy)

/-- The zone selected by the resolution loop has exactly the target
name. -/
theorem resolveZone_name {pages : List (List ZoneEntry)} {target : String} {z : ZoneEntry}
    (h : resolveZone pages target = some z) : z.name = target := by
  have := List.find?_some h
  simpa using this

/-- Claim C5: the record reconciler normalizes the requested zone name to
the trailing-dot convention and matches by exact equality against that
normalized name; the first hosted zone with the target name wins among
duplicates; a Create intent and an Update intent run the identical path,
both mapping to the single idempotent `UPSERT` action; a Delete intent
maps to the `DELETE` removal action. -/
theorem C5_reconciler (zone name value recordType : String) (ttl : Nat)
    (pages : List (List ZoneEntry)) (changeOk : Bool) :
    (∀ z, resolveZone pages (targetZoneName zone) = some z →
      z.name = targetZoneName zone ∧ strEndsWith z.name "." = true) ∧
    (∀ (l₁ l₂ : List ZoneEntry) (z : ZoneEntry),
      pages.flatten = l₁ ++ z :: l₂ →
      z.name = targetZoneName zone →
      (∀ z' ∈ l₁, z'.name ≠ targetZoneName zone) →
      resolveZone pages (targetZoneName zone) = some z) ∧
    (route53Manage true false false zone name value recordType ttl
        (Except.ok pages) changeOk =
      route53Manage false true false zone name value recordType ttl
        (Except.ok pages) changeOk) ∧
    (∀ z ts, resolveZone pages (targetZoneName zone) = some z →
      z.tagFetch = TagFetch.ok ts → isOwnedTags ts = true →
      (route53Manage true false false zone name value recordType ttl
          (Except.ok pages) changeOk).calls
        = [Call.changeResourceRecordSets (lastSegment z.id) "UPSERT"
            name recordType value ttl] ∧
      (route53Manage false false true zone name value recordType ttl
          (Except.ok pages) changeOk).calls
        = [Call.changeResourceRecordSets (lastSegment z.id) "DELETE"
            name recordType value ttl]) := by
  refine ⟨?_, ?_, ?_, ?_⟩
  · intro z hres
    have hn := resolveZone_name hres
    exact ⟨hn, hn ▸ targetZoneName_endsWith_dot zone⟩
  · intro l₁ l₂ z hsplit hz hbefore
    unfold resolveZone
    rw [hsplit]
    refine find?_append_first _ l₁ l₂ z (by simp [hz]) fun x hx => ?_
    simpa using hbefore x hx
  · rfl
  · intro z ts hres htf how
    cases changeOk <;>
      constructor <;> simp [route53Manage, hres, htf, how]

/-- Claim C5, witness: two hosted zones share the name `example.com.`;
the first is selected; Create and Update both issue `UPSERT` and Delete
issues `DELETE` against its id. -/
theorem C5_reconciler_witness :
    resolveZone [[⟨"/hostedzone/ZA", "example.com.", TagFetch.ok [ownershipTag]⟩],
        [⟨"/hostedzone/ZB", "example.com.", TagFetch.ok [ownershipTag]⟩]]
      (targetZoneName "example.com")
      = some ⟨"/hostedzone/ZA", "example.com.", TagFetch.ok [ownershipTag]⟩ ∧
    (route53Manage true false false "example.com" "api.example.com" "1.2.3.4" "A" 300
        (Except.ok [[⟨"/hostedzone/ZA", "example.com.", TagFetch.ok [ownershipTag]⟩],
          [⟨"/hostedzone/ZB", "example.com.", TagFetch.ok [ownershipTag]⟩]]) true).calls
      = [Call.changeResourceRecordSets "ZA" "UPSERT" "api.example.com" "A" "1.2.3.4" 300] ∧
    (route53Manage false false true "example.com" "api.example.com" "1.2.3.4" "A" 300
        (Except.ok [[⟨"/hostedzone/ZA", "example.com.", TagFetch.ok [ownershipTag]⟩],
          [⟨"/hostedzone/ZB", "example.com.", TagFetch.ok [ownershipTag]⟩]]) true).calls
      = [Call.changeResourceRecordSets "ZA" "DELETE" "api.example.com" "A" "1.2.3.4" 300] :=
  ⟨(C5_reconciler "example.com" "api.example.com" "1.2.3.4" "A" 300
      [[⟨"/hostedzone/ZA", "example.com.", TagFetch.ok [ownershipTag]⟩],
       [⟨"/hostedzone/ZB", "example.com.", TagFetch.ok [ownershipTag]⟩]] true).2.1
      [] [⟨"/hostedzone/ZB", "example.com.", TagFetch.ok [ownershipTag]⟩]
      ⟨"/hostedzone/ZA", "example.com.", TagFetch.ok [ownershipTag]⟩
      (by decide) (by decide) (by decide),
   ((C5_reconciler "example.com" "api.example.com" "1.2.3.4" "A" 300
      [[⟨"/hostedzone/ZA", "example.com.", TagFetch.ok [ownershipTag]⟩],
       [⟨"/hostedzone/ZB", "example.com.", TagFetch.ok [ownershipTag]⟩]] true).2.2.2
      ⟨"/hostedzone/ZA", "example.com.", TagFetch.ok [ownershipTag]⟩ [ownershipTag]
      (by decide) rfl (by decide)).1,
   ((C5_reconciler "example.com" "api.example.com" "1.2.3.4" "A" 300
      [[⟨"/hostedzone/ZA", "example.com.", TagFetch.ok [ownershipTag]⟩],
       [⟨"/hostedzone/ZB", "example.com.", TagFetch.ok [ownershipTag]⟩]] true).2.2.2
      ⟨"/hostedzone/ZA", "example.com.", TagFetch.ok [ownershipTag]⟩ [ownershipTag]
      (by decide) rfl (by decide)).2⟩

/-- Every path of the Route53 record manage command returns normally:
its error handling uses `return`, never `sys.exit(1)`. -/
theorem route53Manage_exit_zero (cr up de : Bool) (zone nm v ty : String) (ttl : Nat)
    (pages : List (List ZoneEntry)) (changeOk : Bool) :
    (route53Manage cr up de zone nm v ty ttl (Except.ok pages) changeOk).outcome
      = Outcome.exit 0 := by
  by_cases hflag :
      ((if cr then 1 else 0) + (if up then 1 else 0) + (if de then 1 else 0) : Nat) ≠ 1
  · simp [route53Manage, hflag]
  · cases hr : resolveZone pages (targetZoneName zone) with
    | none => simp [route53Manage, hflag, hr]
    | some z =>
      cases htf : z.tagFetch with
      | err e => simp [route53Manage, hflag, hr, htf]
      | ok ts =>
        cases ho : isOwnedTags ts <;> cases changeOk <;>
          simp [route53Manage, hflag, hr, htf, ho]

/-- Claim C6, counterexample: a DNS record change against a zone that
exists but is not owned is a permission failure, yet the command prints
"Permission Denied" and returns normally — the process exits with
status 0, not non-zero. -/
theorem C6_counterexample :
    route53Manage true false false "example.com" "api.example.com" "1.2.3.4" "A" 300
        (Except.ok [[⟨"/hostedzone/Z9", "example.com.", TagFetch.ok []⟩]]) true =
      ⟨Outcome.exit 0, [],
        ["Permission Denied: Zone 'example.com' is not managed by Hi-platform-cli."]⟩ := by
  decide

/-- Claim C6, amended: the compute and storage commands terminate with
exit status 1 on user-input errors and permission/authorization failures
(wrong flags, not-found, not-owned, quota-exceeded, invalid transition)
and with status 0 on success and no-op aborts; the DNS record manage
command, however, exits with status 0 on every outcome — wrong flag
combination, zone not found, tag-read failure, permission denial,
provider error and success alike — distinguishing them only by the
printed message. -/
theorem C6_amended_exit_contract :
    (∀ (instance_id : String) (lookup : Except String Ec2Instance),
      (ec2Manage true true instance_id lookup).outcome = Outcome.exit 1 ∧
      (ec2Manage false false instance_id lookup).outcome = Outcome.exit 1) ∧
    (∀ (start stop : Bool) (instance_id e : String),
      (ec2Manage start stop instance_id (Except.error e)).outcome = Outcome.exit 1) ∧
    (∀ (start stop : Bool) (instance_id : String) (inst : Ec2Instance),
      isOwnedTags inst.tags = false →
      (ec2Manage start stop instance_id (Except.ok inst)).outcome = Outcome.exit 1) ∧
    (∀ (instance_id : String) (tags : List Tag), isOwnedTags tags = true →
      (ec2Manage true false instance_id
        (Except.ok ⟨instance_id, "running", tags⟩)).outcome = Outcome.exit 0 ∧
      (ec2Manage true false instance_id
        (Except.ok ⟨instance_id, "stopped", tags⟩)).outcome = Outcome.exit 0 ∧
      (ec2Manage false true instance_id
        (Except.ok ⟨instance_id, "terminated", tags⟩)).outcome = Outcome.exit 1) ∧
    (∀ (w : AwsWorld) (count : Nat) (logs : List String) (ity osn amiId : String),
      get_global_count w = Except.ok (count, logs) →
      (count ≥ MAX_RESOURCES →
        (ec2Create true w (Except.ok amiId) ity osn).outcome = Outcome.exit 1) ∧
      (count < MAX_RESOURCES →
        (ec2Create true w (Except.ok amiId) ity osn).outcome = Outcome.exit 0)) ∧
    (∀ (bucket file : String) (ts : List Tag) (uploadOk : Bool),
      (s3Upload false bucket file (TagFetch.ok ts) uploadOk).outcome = Outcome.exit 1 ∧
      (∀ code, (s3Upload true bucket file (TagFetch.err code) uploadOk).outcome
        = Outcome.exit 1) ∧
      (isOwnedTags ts = false →
        (s3Upload true bucket file (TagFetch.ok ts) uploadOk).outcome = Outcome.exit 1) ∧
      (isOwnedTags ts = true →
        (s3Upload true bucket file (TagFetch.ok ts) true).outcome = Outcome.exit 0)) ∧
    (∀ (cr up de : Bool) (zone nm v ty : String) (ttl : Nat)
        (pages : List (List ZoneEntry)) (changeOk : Bool),
      (route53Manage cr up de zone nm v ty ttl (Except.ok pages) changeOk).outcome
        = Outcome.exit 0) := by
  refine ⟨?_, ?_, ?_, ?_, ?_, ?_, route53Manage_exit_zero⟩
  · intro instance_id lookup
    exact ⟨by simp [ec2Manage], by simp [ec2Manage]⟩
  · intro start stop instance_id e
    cases start <;> cases stop <;> simp [ec2Manage]
  · intro start stop instance_id inst h
    cases start <;> cases stop <;> simp [ec2Manage, h]
  · intro instance_id tags h
    refine ⟨?_, ?_, ?_⟩ <;> simp [ec2Manage, h]
  · intro w count logs ity osn amiId hc
    constructor
    · intro hge
      simp [ec2Create, hc, hge]
    · intro hlt
      have h' : ¬count ≥ MAX_RESOURCES := Nat.not_le.mpr hlt
      simp [ec2Create, hc, h']
  · intro bucket file ts uploadOk
    refine ⟨by simp [s3Upload], fun code => by simp [s3Upload], fun h => by simp [s3Upload, h],
      fun h => by simp [s3Upload, h]⟩

/-- Claim C6, amended, witness: concrete runs of each clause. -/
theorem C6_amended_exit_contract_witness :
    (ec2Manage true true "i-1" (Except.error "boom")).outcome = Outcome.exit 1 ∧
    (ec2Manage true false "i-1" (Except.error "NotFound")).outcome = Outcome.exit 1 ∧
    (ec2Manage false true "i-1"
      (Except.ok ⟨"i-1", "running", [⟨"Name", "x"⟩]⟩)).outcome = Outcome.exit 1 ∧
    (ec2Manage true false "i-1"
      (Except.ok ⟨"i-1", "running", [ownershipTag]⟩)).outcome = Outcome.exit 0 ∧
    (ec2Create true cappedWorld (Except.ok "ami-1") "t3.micro" "ubuntu").outcome
      = Outcome.exit 1 ∧
    (s3Upload true "b" "f.txt" (TagFetch.err "NoSuchBucket") true).outcome
      = Outcome.exit 1 ∧
    (route53Manage true false false "example.com" "api.example.com" "1.2.3.4" "A" 300
      (Except.ok []) true).outcome = Outcome.exit 0 :=
  ⟨(C6_amended_exit_contract.1 "i-1" (Except.error "boom")).1,
   C6_amended_exit_contract.2.1 true false "i-1" "NotFound",
   C6_amended_exit_contract.2.2.1 false true "i-1" ⟨"i-1", "running", [⟨"Name", "x"⟩]⟩
     (by decide),
   (C6_amended_exit_contract.2.2.2.1 "i-1" [ownershipTag] (by decide)).1,
   (C6_amended_exit_contract.2.2.2.2.1 cappedWorld 2 [] "t3.micro" "ubuntu" "ami-1" rfl).1
     (by decide),
   (C6_amended_exit_contract.2.2.2.2.2.1 "b" "f.txt" [] true).2.1 "NoSuchBucket",
   C6_amended_exit_contract.2.2.2.2.2.2 true false false "example.com" "api.example.com"
     "1.2.3.4" "A" 300 [] true⟩

/-- Claim C7: during global counting a `NoSuchTagSet` bucket tag fetch is
silently treated as not-owned; any other per-item tag-lookup failure is
logged and the item skipped, never aborting the count; only a failure of
a primary list/page call aborts the whole operation. -/
theorem C7_partial_enumeration :
    (∀ b_name, bucketTagStep ⟨b_name, TagFetch.err "NoSuchTagSet"⟩ = (0, [])) ∧
    (∀ b_name code, code ≠ "NoSuchTagSet" →
      bucketTagStep ⟨b_name, TagFetch.err code⟩
        = (0, ["Error checking tags for bucket " ++ b_name])) ∧
    (∀ zid zname code, zoneTagStep ⟨zid, zname, TagFetch.err code⟩
        = (0, ["Error checking tags for zone " ++ lastSegment zid])) ∧
    (∀ (insts : List Ec2Instance) (bkts : List Bucket) (pages : List (List ZoneEntry)),
      ∃ n logs, get_global_count ⟨Except.ok insts, Except.ok bkts, Except.ok pages⟩
        = Except.ok (n, logs)) ∧
    (∀ (e : String) s3 r53, get_global_count ⟨Except.error e, s3, r53⟩ = Except.error e) ∧
    (∀ (e : String) insts r53,
      get_global_count ⟨Except.ok insts, Except.error e, r53⟩ = Except.error e) ∧
    (∀ (e : String) insts bkts,
      get_global_count ⟨Except.ok insts, Except.ok bkts, Except.error e⟩
        = Except.error e) := by
  refine ⟨fun _ => rfl, ?_, fun _ _ _ => rfl, ?_, fun _ _ _ => rfl, fun _ _ _ => rfl,
    fun _ _ _ => rfl⟩
  · intro b_name code h
    simp [bucketTagStep, h]
  · intro insts bkts pages
    obtain ⟨logs, hl⟩ := global_count_closed_form insts bkts pages
    exact ⟨_, logs, hl⟩

/-- Claim C7, witness: a `NoSuchTagSet` bucket, an access-denied bucket,
a failing zone lookup, and completion of the count over all of them. -/
theorem C7_partial_enumeration_witness :
    bucketTagStep ⟨"b1", TagFetch.err "NoSuchTagSet"⟩ = (0, []) ∧
    bucketTagStep ⟨"b2", TagFetch.err "AccessDenied"⟩
      = (0, ["Error checking tags for bucket b2"]) ∧
    zoneTagStep ⟨"/hostedzone/Z1", "example.com.", TagFetch.err "Throttling"⟩
      = (0, ["Error checking tags for zone Z1"]) ∧
    (∃ n logs, get_global_count ⟨Except.ok [],
      Except.ok [⟨"b1", TagFetch.err "NoSuchTagSet"⟩, ⟨"b2", TagFetch.err "AccessDenied"⟩],
      Except.ok [[⟨"/hostedzone/Z1", "example.com.", TagFetch.err "Throttling"⟩]]⟩
        = Except.ok (n, logs)) :=
  ⟨C7_partial_enumeration.1 "b1",
   C7_partial_enumeration.2.1 "b2" "AccessDenied" (by decide),
   C7_partial_enumeration.2.2.1 "/hostedzone/Z1" "example.com." "Throttling",
   C7_partial_enumeration.2.2.2.1 []
     [⟨"b1", TagFetch.err "NoSuchTagSet"⟩, ⟨"b2", TagFetch.err "AccessDenied"⟩]
     [[⟨"/hostedzone/Z1", "example.com.", TagFetch.err "Throttling"⟩]]⟩

/-- Claim C9, counterexample: a successful compute creation issues
exactly one provider call — `run_instances` carrying the
`CreatedBy=Hi-platform-cli` tag inside its `TagSpecifications` — with no
separate tag-write call afterwards, so for the compute kind the
ownership tag IS written atomically within the create call. -/
theorem C9_counterexample :
    (ec2Create true emptyWorld (Except.ok "ami-123") "t3.micro" "ubuntu").calls =
      [Call.runInstances "t3.micro"
        [ownershipTag, ⟨"Name", "Hi-platform-cli-ubuntu-node"⟩]] := by decide

/-- Claim C9, amended: for storage buckets and DNS hosted zones the
ownership tag is written by a second provider call issued after the
create call returns, so a failure between create and tag-write leaves an
unowned live resource (the command crashes after `create_bucket` already
succeeded); for compute instances, however, the ownership tag is
attached atomically inside the single `run_instances` create call, with
no separate tag-write call. -/
theorem C9_amended_tag_after_create (w : AwsWorld) (count : Nat) (logs : List String)
    (hc : get_global_count w = Except.ok (count, logs)) (hlt : count < MAX_RESOURCES) :
    (∀ bname : String,
      (s3Create false false true w bname true true).calls
        = [Call.createBucket bname, Call.putBucketTagging bname (s3CreateTags bname)] ∧
      ownershipTag ∈ s3CreateTags bname ∧
      (s3Create false false true w bname true false).outcome
        = Outcome.crash "put_bucket_tagging failed" ∧
      (s3Create false false true w bname true false).calls
        = [Call.createBucket bname, Call.putBucketTagging bname (s3CreateTags bname)]) ∧
    (∀ (domain full_id : String) (tagOk : Bool),
      (route53Create w domain (Except.ok full_id) tagOk).calls
        = [Call.createHostedZone domain,
           Call.changeTagsForResource (lastSegment full_id) [ownershipTag]]) ∧
    (∀ amiId ity osn : String,
      (ec2Create true w (Except.ok amiId) ity osn).calls
        = [Call.runInstances ity (ec2CreateTags osn)] ∧
      ownershipTag ∈ ec2CreateTags osn) := by
  have h' : ¬count ≥ MAX_RESOURCES := Nat.not_le.mpr hlt
  refine ⟨?_, ?_, ?_⟩
  · intro bname
    refine ⟨?_, ?_, ?_, ?_⟩ <;> simp [s3Create, s3CreateTags, hc, h']
  · intro domain full_id tagOk
    cases tagOk <;> simp [route53Create]
  · intro amiId ity osn
    exact ⟨by simp [ec2Create, hc, h'], by simp [ec2CreateTags]⟩

/-- Claim C9, amended, witness: applied in `emptyWorld` (count 0). -/
theorem C9_amended_tag_after_create_witness :
    (s3Create false false true emptyWorld "hi-b" true true).calls
      = [Call.createBucket "hi-b", Call.putBucketTagging "hi-b" (s3CreateTags "hi-b")] ∧
    (s3Create false false true emptyWorld "hi-b" true false).outcome
      = Outcome.crash "put_bucket_tagging failed" ∧
    (route53Create emptyWorld "example.com" (Except.ok "/hostedzone/Z7") true).calls
      = [Call.createHostedZone "example.com",
         Call.changeTagsForResource "Z7" [ownershipTag]] ∧
    (ec2Create true emptyWorld (Except.ok "ami-9") "t2.small" "amazon-linux").calls
      = [Call.runInstances "t2.small" (ec2CreateTags "amazon-linux")] :=
  ⟨((C9_amended_tag_after_create emptyWorld 0 [] rfl (by decide)).1 "hi-b").1,
   ((C9_amended_tag_after_create emptyWorld 0 [] rfl (by decide)).1 "hi-b").2.2.1,
   by
     have h := (C9_amended_tag_after_create emptyWorld 0 [] rfl (by decide)).2.1
       "example.com" "/hostedzone/Z7" true
     simpa using h,
   ((C9_amended_tag_after_create emptyWorld 0 [] rfl (by decide)).2.2
     "ami-9" "t2.small" "amazon-linux").1⟩

end HiPlatform
